import Mathlib

/-!
Shallow embedding of `safenode/src/network/cmd.rs` (the `SwarmCmd` enum,
`SwarmLocalState`, and `SwarmDriver::handle_cmd`) and verification of the
specification claims about it.

Modelling conventions:
* Opaque wire-level types (`PeerId`, `Multiaddr`, `XorName`, `Request`,
  `Response`, `RecordKey`, query / request identifiers, libp2p response
  channels) are modelled as `Nat`.
* A tokio `oneshot::Sender` is modelled as an identifier together with an
  `alive` flag telling whether the receiving end still exists; `send`
  succeeds exactly when the receiver is alive, returning the value back on
  failure, as the tokio API does.
* The external collaborators (the libp2p swarm / kademlia / request-response
  behaviours and the event channel) are modelled as an oracle structure
  `NetworkStack` of pure response functions; every call into a collaborator
  and every write attempted on a completion channel is recorded, in program
  order, in an effect trace.
* The four pending tables (`HashMap`s in the source) are association lists;
  `mapInsert` reproduces `HashMap::insert` (replace the value under an
  existing key), and the `pending_dial` vacancy check reproduces the
  `hash_map::Entry::Vacant` guard.
* `handle_cmd` is a pure function from oracle, driver state and command to
  the returned `Result`, the new driver state and the effect trace.
-/

namespace SafeNode

/-- The libp2p `PeerId` type, opaque. -/
abbrev PeerId := Nat

/-- The libp2p `Multiaddr` type, opaque. -/
abbrev Multiaddr := Nat

/-- The `xor_name::XorName` type, opaque. -/
abbrev XorName := Nat

/-- The `protocol::messages::Request` type, an opaque payload. -/
abbrev Request := Nat

/-- The `protocol::messages::Response` type, an opaque payload. -/
abbrev Response := Nat

/-- The `protocol::messages::QueryResponse` type, an opaque payload. -/
abbrev QueryResponse := Nat

/-- The `libp2p::kad::RecordKey` type, opaque. -/
abbrev RecordKey := Nat

/-- Kademlia `QueryId`: the operation identifier returned by
`get_record` / `get_closest_peers`. -/
abbrev QueryId := Nat

/-- request-response `RequestId`: the operation identifier returned by
`send_request`. -/
abbrev RequestId := Nat

/-- libp2p `ResponseChannel` token used by the `FromPeer` responder. -/
abbrev ResponseChannel := Nat

/-- The `libp2p::kad::Record` type: an opaque key/value unit. -/
structure Record where
  key : RecordKey
  value : Nat
  deriving DecidableEq

/-- The `libp2p::kad::Quorum` policy. -/
inductive Quorum
  | one
  | majority
  | all
  | n : Nat → Quorum
  deriving DecidableEq

/-- Modelled from the spec: the `network::error::Error` type lives in
`network/error.rs`, which is not among the shown sources.  The constructors
`internalMsgChannelDropped` and `outgoingResponseDropped` appear literally in
`cmd.rs`; `recordStoreError` is the target of the `From` conversion applied by
the `?` operator to the store error of `kademlia::put_record`;
`eventChannelSendError` is the target of the conversion applied by `?` to a
failed `event_sender.send(..).await`; `listenFailure` and `dialFailure` are
the targets of the `e.into()` conversions applied to `listen_on` / `dial`
errors before they are written to a completion channel. -/
inductive Error
  | internalMsgChannelDropped
  | outgoingResponseDropped (resp : Response)
  | recordStoreError (e : Nat)
  | eventChannelSendError
  | listenFailure (e : Nat)
  | dialFailure (e : Nat)
  deriving DecidableEq

/-- Decidable equality for `Except`, used by the derived instances below. -/
instance exceptDecEq {ε α : Type} [DecidableEq ε] [DecidableEq α] :
    DecidableEq (Except ε α) := fun x y =>
  match x, y with
  | .ok a, .ok b =>
      if h : a = b then .isTrue (by subst h; rfl)
      else .isFalse (fun hc => by cases hc; exact h rfl)
  | .ok _, .error _ => .isFalse (fun hc => Except.noConfusion hc)
  | .error _, .ok _ => .isFalse (fun hc => Except.noConfusion hc)
  | .error a, .error b =>
      if h : a = b then .isTrue (by subst h; rfl)
      else .isFalse (fun hc => by cases hc; exact h rfl)

/-- A tokio `oneshot::Sender<α>`: an identifier plus whether the receiving
half still exists.  The type parameter is phantom and mirrors the payload
type of the channel. -/
structure OneshotSender (α : Type) where
  id : Nat
  alive : Bool
  deriving DecidableEq

/-- The `oneshot::Sender::send` operation: succeeds iff the receiver is still alive, and
gives the value back to the caller on failure. -/
def OneshotSender.push {α : Type} (s : OneshotSender α) (v : α) : Except α Unit :=
  if s.alive then .ok () else .error v

/-- The `MsgResponder` sum type: a tagged handle for answering one inbound request. -/
inductive MsgResponder
  | fromSelf (chan : OneshotSender (Except Error Response))
  | fromPeer (chan : ResponseChannel)
  deriving DecidableEq

/-- Snapshot of information kept in the Swarm's local state
(`SwarmLocalState` in `cmd.rs`). -/
structure SwarmLocalState where
  connected_peers : List PeerId
  listeners : List Multiaddr
  deriving DecidableEq

/-- The `SwarmCmd` enum: commands to send to the Swarm.  The `HashSet<PeerId>` payload
of the closest-peers replies is modelled as a list. -/
inductive SwarmCmd
  | startListening (addr : Multiaddr) (sender : OneshotSender (Except Error Unit))
  | dial (peer_id : PeerId) (peer_addr : Multiaddr) (sender : OneshotSender (Except Error Unit))
  | queryForClosestPeers (xor_name : XorName) (sender : OneshotSender (List PeerId))
  | getClosestLocalPeers (xor_name : XorName) (sender : OneshotSender (List PeerId))
  | sendRequest (req : Request) (peer : PeerId) (sender : OneshotSender (Except Error Response))
  | sendResponse (resp : Response) (channel : MsgResponder)
  | getSwarmLocalState (sender : OneshotSender SwarmLocalState)
  | putProvidedDataAsRecord (record : Record)
  | getData (key : RecordKey) (sender : OneshotSender QueryResponse)
  deriving DecidableEq

/-- One observable step of `handle_cmd`: either a call into an external
collaborator (swarm, kademlia, request-response behaviour, event channel) or
a write attempted on a completion channel (`sent…` constructors record the
channel identifier and the value handed to `send`). -/
inductive Effect
  | kadGetRecord (key : RecordKey)
  | kadPutRecord (record : Record) (quorum : Quorum)
  | swarmListenOn (addr : Multiaddr)
  | kadAddAddress (peer : PeerId) (addr : Multiaddr)
  | swarmDialAttempt (peer : PeerId) (addr : Multiaddr)
  | kadGetClosestPeers (key : XorName)
  | kadGetClosestLocalPeers (key : XorName)
  | reqRespSendRequest (peer : PeerId) (req : Request)
  | reqRespSendResponse (channel : ResponseChannel) (resp : Response)
  | eventRequestReceived (req : Request) (channel : MsgResponder)
  | sentUnitResult (sid : Nat) (v : Except Error Unit)
  | sentPeers (sid : Nat) (v : List PeerId)
  | sentResponseResult (sid : Nat) (v : Except Error Response)
  | sentLocalState (sid : Nat) (v : SwarmLocalState)
  deriving DecidableEq

/-- Oracle for the external collaborators consumed by `handle_cmd`: the
outcome of each swarm / kademlia / request-response call and the liveness of
the outward channels.  Operation identifiers are whatever the collaborator
chooses to return. -/
structure NetworkStack where
  listenOutcome : Multiaddr → Except Nat Unit
  dialOutcome : PeerId → Multiaddr → Except Nat Unit
  getRecordId : RecordKey → QueryId
  getClosestPeersId : XorName → QueryId
  localClosestPeers : XorName → List PeerId
  sendRequestId : PeerId → Request → RequestId
  peerChannelOpen : ResponseChannel → Bool
  putRecordOutcome : Record → Quorum → Except Nat QueryId
  eventSendOk : Bool

/-- Association-list lookup with decidable key equality (the reading
operation of the `HashMap` tables). -/
def alLookup {κ ν : Type} [DecidableEq κ] (k : κ) : List (κ × ν) → Option ν
  | [] => none
  | (a, b) :: t => if a = k then some b else alLookup k t

/-- The `HashMap::insert` operation on the association-list model: if the key is already
present its value is REPLACED by the new one (the old value is discarded,
exactly as `let _ = map.insert(k, v)` discards it); otherwise the new entry
is appended. -/
def mapInsert {κ ν : Type} [DecidableEq κ] (m : List (κ × ν)) (k : κ) (v : ν) :
    List (κ × ν) :=
  if (alLookup k m).isSome then
    m.map (fun p => if p.1 = k then (k, v) else p)
  else
    m ++ [(k, v)]

/-- Mutable state of `SwarmDriver`: the local peer identity, the four
pending correlation tables, and the observable swarm state used by the
local-state snapshot. -/
structure SwarmDriver where
  local_peer_id : PeerId
  pending_dial : List (PeerId × OneshotSender (Except Error Unit))
  pending_query : List (QueryId × OneshotSender QueryResponse)
  pending_get_closest_peers : List (QueryId × (OneshotSender (List PeerId) × List PeerId))
  pending_requests : List (RequestId × OneshotSender (Except Error Response))
  connected_peers : List PeerId
  swarm_listeners : List Multiaddr
  deriving DecidableEq

/-- The function `SwarmDriver::handle_cmd`, translated arm by arm from `cmd.rs`.
Returns the `Result<(), Error>` of the Rust function, the driver state after
the command, and the trace of effects in program order. -/
def handle_cmd (stack : NetworkStack) (st : SwarmDriver) (cmd : SwarmCmd) :
    Except Error Unit × SwarmDriver × List Effect :=
  match cmd with
  | .getData key sender =>
      let query_id := stack.getRecordId key
      (.ok (), { st with pending_query := mapInsert st.pending_query query_id sender },
        [.kadGetRecord key])
  | .putProvidedDataAsRecord record =>
      match stack.putRecordOutcome record .all with
      | .ok _ => (.ok (), st, [.kadPutRecord record .all])
      | .error e => (.error (.recordStoreError e), st, [.kadPutRecord record .all])
  | .startListening addr sender =>
      match stack.listenOutcome addr with
      | .ok _ =>
          (.ok (), st, [.swarmListenOn addr, .sentUnitResult sender.id (.ok ())])
      | .error e =>
          (.ok (), st,
            [.swarmListenOn addr, .sentUnitResult sender.id (.error (.listenFailure e))])
  | .dial peer_id peer_addr sender =>
      if (alLookup peer_id st.pending_dial).isSome then
        (.ok (), st, [])
      else
        match stack.dialOutcome peer_id peer_addr with
        | .ok _ =>
            (.ok (), { st with pending_dial := st.pending_dial ++ [(peer_id, sender)] },
              [.kadAddAddress peer_id peer_addr, .swarmDialAttempt peer_id peer_addr])
        | .error e =>
            (.ok (), st,
              [.kadAddAddress peer_id peer_addr, .swarmDialAttempt peer_id peer_addr,
                .sentUnitResult sender.id (.error (.dialFailure e))])
  | .queryForClosestPeers xor_name sender =>
      let query_id := stack.getClosestPeersId xor_name
      (.ok (),
        { st with pending_get_closest_peers :=
            mapInsert st.pending_get_closest_peers query_id (sender, []) },
        [.kadGetClosestPeers xor_name])
  | .getClosestLocalPeers xor_name sender =>
      let closest := stack.localClosestPeers xor_name
      (.ok (), st, [.kadGetClosestLocalPeers xor_name, .sentPeers sender.id closest])
  | .sendRequest req peer sender =>
      if peer = st.local_peer_id then
        (if stack.eventSendOk then .ok () else .error .eventChannelSendError, st,
          [.eventRequestReceived req (.fromSelf sender)])
      else
        let request_id := stack.sendRequestId peer req
        (.ok (), { st with pending_requests := mapInsert st.pending_requests request_id sender },
          [.reqRespSendRequest peer req])
  | .sendResponse resp channel =>
      match channel with
      | .fromSelf chan =>
          (if chan.alive then .ok () else .error .internalMsgChannelDropped, st,
            [.sentResponseResult chan.id (.ok resp)])
      | .fromPeer chan =>
          (if stack.peerChannelOpen chan then .ok ()
            else .error (.outgoingResponseDropped resp), st,
            [.reqRespSendResponse chan resp])
  | .getSwarmLocalState sender =>
      let current_state : SwarmLocalState :=
        { connected_peers := st.connected_peers, listeners := st.swarm_listeners }
      (if sender.alive then .ok () else .error .internalMsgChannelDropped, st,
        [.sentLocalState sender.id current_state])

/-- Replacing the value under a present key leaves the key bound to the new
value. -/
theorem alLookup_map_replace {κ ν : Type} [DecidableEq κ] (m : List (κ × ν)) (k : κ) (v : ν)
    (h : (alLookup k m).isSome) :
    alLookup k (m.map (fun p => if p.1 = k then (k, v) else p)) = some v := by
  induction m with
  | nil => simp [alLookup] at h
  | cons p t ih =>
      obtain ⟨a, b⟩ := p
      by_cases hk : a = k
      · subst hk
        have hhead : (if (a, b).1 = a then (a, v) else (a, b)) = (a, v) := by simp
        rw [List.map_cons, hhead]
        simp [alLookup]
      · have hhead : (if (a, b).1 = k then (k, v) else (a, b)) = (a, b) := by
          simp [hk]
        rw [List.map_cons, hhead]
        simp only [alLookup, hk, if_false] at h
        simpa [alLookup, hk] using ih h

/-- Appending a fresh binding makes the key found with the appended value. -/
theorem alLookup_append_self {κ ν : Type} [DecidableEq κ] (m : List (κ × ν)) (k : κ) (v : ν)
    (h : alLookup k m = none) :
    alLookup k (m ++ [(k, v)]) = some v := by
  induction m with
  | nil => simp [alLookup]
  | cons p t ih =>
      obtain ⟨a, b⟩ := p
      by_cases hk : a = k
      · simp [alLookup, hk] at h
      · simp only [alLookup, hk, if_false] at h
        simpa [alLookup, hk] using ih h

/-- After `mapInsert m k v` the key `k` is bound to `v`, whether or not `k`
was present before (the replace semantics of `HashMap::insert`). -/
theorem alLookup_mapInsert_self {κ ν : Type} [DecidableEq κ] (m : List (κ × ν)) (k : κ)
    (v : ν) : alLookup k (mapInsert m k v) = some v := by
  unfold mapInsert
  by_cases h : (alLookup k m).isSome
  · rw [if_pos h]
    exact alLookup_map_replace m k v h
  · rw [if_neg h]
    exact alLookup_append_self m k v (Option.not_isSome_iff_eq_none.mp h)

/-- On an absent key, `mapInsert` is a plain append. -/
theorem mapInsert_of_absent {κ ν : Type} [DecidableEq κ] (m : List (κ × ν)) (k : κ) (v : ν)
    (h : alLookup k m = none) : mapInsert m k v = m ++ [(k, v)] := by
  unfold mapInsert
  rw [if_neg (by simp [h])]

/-- A correlation table evolves conservatively from `old` to `new`: either it
is unchanged, or exactly one fresh binding was appended, so every entry of
`old` is still present and unchanged in `new`. -/
def TableExtends {κ ν : Type} [DecidableEq κ] (old new : List (κ × ν)) : Prop :=
  new = old ∨ ∃ k v, alLookup k old = none ∧ new = old ++ [(k, v)]

/-- Frame relation between the driver state before and after one command:
each of the four correlation tables extends conservatively, and at most one
of the four tables changed. -/
def FramePreserved (old new : SwarmDriver) : Prop :=
  TableExtends old.pending_dial new.pending_dial ∧
  TableExtends old.pending_query new.pending_query ∧
  TableExtends old.pending_get_closest_peers new.pending_get_closest_peers ∧
  TableExtends old.pending_requests new.pending_requests ∧
  (new.pending_dial ≠ old.pending_dial →
    new.pending_query = old.pending_query ∧
    new.pending_get_closest_peers = old.pending_get_closest_peers ∧
    new.pending_requests = old.pending_requests) ∧
  (new.pending_query ≠ old.pending_query →
    new.pending_dial = old.pending_dial ∧
    new.pending_get_closest_peers = old.pending_get_closest_peers ∧
    new.pending_requests = old.pending_requests) ∧
  (new.pending_get_closest_peers ≠ old.pending_get_closest_peers →
    new.pending_dial = old.pending_dial ∧
    new.pending_query = old.pending_query ∧
    new.pending_requests = old.pending_requests) ∧
  (new.pending_requests ≠ old.pending_requests →
    new.pending_dial = old.pending_dial ∧
    new.pending_query = old.pending_query ∧
    new.pending_get_closest_peers = old.pending_get_closest_peers)

/-- The frame relation holds reflexively. -/
theorem framePreserved_refl (st : SwarmDriver) : FramePreserved st st := by
  refine ⟨Or.inl rfl, Or.inl rfl, Or.inl rfl, Or.inl rfl, ?_, ?_, ?_, ?_⟩ <;>
    exact fun h => absurd rfl h

/-- Fixture: a collaborator oracle on which every call succeeds. -/
def stack0 : NetworkStack where
  listenOutcome := fun _ => .ok ()
  dialOutcome := fun _ _ => .ok ()
  getRecordId := fun _ => 5
  getClosestPeersId := fun _ => 6
  localClosestPeers := fun _ => [2, 3]
  sendRequestId := fun _ _ => 7
  peerChannelOpen := fun _ => true
  putRecordOutcome := fun _ _ => .ok 9
  eventSendOk := true

/-- Fixture: a collaborator oracle on which every call fails and every
outward channel is closed. -/
def stackFail : NetworkStack where
  listenOutcome := fun _ => .error 3
  dialOutcome := fun _ _ => .error 4
  getRecordId := fun _ => 5
  getClosestPeersId := fun _ => 6
  localClosestPeers := fun _ => []
  sendRequestId := fun _ _ => 7
  peerChannelOpen := fun _ => false
  putRecordOutcome := fun _ _ => .error 8
  eventSendOk := false

/-- Fixture: a driver with local peer identity `0`, empty tables, two
connected peers and one listener. -/
def st0 : SwarmDriver where
  local_peer_id := 0
  pending_dial := []
  pending_query := []
  pending_get_closest_peers := []
  pending_requests := []
  connected_peers := [21, 22]
  swarm_listeners := [31]

/-- Fixture completion channel (unit result), receiver alive. -/
def uSender1 : OneshotSender (Except Error Unit) := ⟨11, true⟩

/-- Fixture completion channel (unit result), receiver alive. -/
def uSender2 : OneshotSender (Except Error Unit) := ⟨12, true⟩

/-- Fixture completion channel (query response), receiver alive. -/
def qSender1 : OneshotSender QueryResponse := ⟨13, true⟩

/-- Fixture completion channel (query response), receiver alive. -/
def qSender2 : OneshotSender QueryResponse := ⟨14, true⟩

/-- Fixture completion channel (response result), receiver alive. -/
def rSender1 : OneshotSender (Except Error Response) := ⟨15, true⟩

/-- Fixture completion channel (response result), receiver alive. -/
def rSender2 : OneshotSender (Except Error Response) := ⟨16, true⟩

/-- Fixture completion channel (peer set), receiver alive. -/
def pSender1 : OneshotSender (List PeerId) := ⟨17, true⟩

/-- Fixture completion channel (local state), receiver dropped. -/
def lsSenderDead : OneshotSender SwarmLocalState := ⟨18, false⟩

/-- Fixture completion channel (local state), receiver alive. -/
def lsSenderLive : OneshotSender SwarmLocalState := ⟨19, true⟩

/-- Fixture: a driver with a pending dial for peer `1`. -/
def stDialBusy : SwarmDriver := { st0 with pending_dial := [(1, uSender1)] }

/-- Fixture: a driver whose query table already holds the identifier `5`
that `stack0.getRecordId` will return again. -/
def stQueryClash : SwarmDriver := { st0 with pending_query := [(5, qSender1)] }

/-- Fixture: a driver whose requests table already holds the identifier `7`
that `stack0.sendRequestId` will return again. -/
def stReqClash : SwarmDriver := { st0 with pending_requests := [(7, rSender1)] }

/-- Claim C1: a `SendRequest` whose destination equals the local peer
identifier never calls the request-response behaviour's `send_request` and
leaves the Requests table untouched; instead the `RequestReceived` event
carrying the original request and a `FromSelf` responder wrapping the
original completion channel is handed to the event channel.  A `SendRequest`
addressed to a different peer calls `send_request` on the network stack and
inserts the returned operation identifier, keyed to the original completion
channel, into the Requests table. -/
theorem sendRequest_self_loopback_vs_remote (stack : NetworkStack) (st : SwarmDriver)
    (req : Request) (peer : PeerId) (sender : OneshotSender (Except Error Response)) :
    (peer = st.local_peer_id →
      (handle_cmd stack st (.sendRequest req peer sender)).2.2 =
          [.eventRequestReceived req (.fromSelf sender)] ∧
      (∀ p r, Effect.reqRespSendRequest p r ∉
          (handle_cmd stack st (.sendRequest req peer sender)).2.2) ∧
      (handle_cmd stack st (.sendRequest req peer sender)).2.1.pending_requests =
          st.pending_requests) ∧
    (peer ≠ st.local_peer_id →
      (handle_cmd stack st (.sendRequest req peer sender)).2.2 =
          [.reqRespSendRequest peer req] ∧
      (handle_cmd stack st (.sendRequest req peer sender)).2.1.pending_requests =
          mapInsert st.pending_requests (stack.sendRequestId peer req) sender) := by
  constructor
  · intro h
    refine ⟨by simp [handle_cmd, h], fun p r => by simp [handle_cmd, h], by simp [handle_cmd, h]⟩
  · intro h
    exact ⟨by simp [handle_cmd, h], by simp [handle_cmd, h]⟩

/-- Witness for C1: with local identity `0`, a request to peer `0` only
produces the loopback event and no Requests entry, while a request to peer
`1` produces the wire call and the table entry under the returned
identifier `7`. -/
theorem sendRequest_self_loopback_vs_remote_witness :
    ((handle_cmd stack0 st0 (.sendRequest 41 0 rSender1)).2.2 =
        [.eventRequestReceived 41 (.fromSelf rSender1)] ∧
      (handle_cmd stack0 st0 (.sendRequest 41 0 rSender1)).2.1.pending_requests = []) ∧
    ((handle_cmd stack0 st0 (.sendRequest 41 1 rSender2)).2.2 =
        [.reqRespSendRequest 1 41] ∧
      (handle_cmd stack0 st0 (.sendRequest 41 1 rSender2)).2.1.pending_requests =
        [(7, rSender2)]) := by
  have hself := (sendRequest_self_loopback_vs_remote stack0 st0 41 0 rSender1).1 (by rfl)
  have hrem := (sendRequest_self_loopback_vs_remote stack0 st0 41 1 rSender2).2 (by decide)
  refine ⟨⟨hself.1, ?_⟩, ⟨hrem.1, ?_⟩⟩
  · rw [hself.2.2]
    rfl
  · rw [hrem.2]
    rfl

/-- Claim C2: a `Dial` for a peer that already has a pending dial entry does
nothing at all — no collaborator call, no write to the new completion
channel, dial table unchanged.  Otherwise the address is first registered as
a routing hint, a dial is attempted, an immediate dial failure is written to
the completion channel with no table entry, and a successfully initiated
dial stores the completion channel in the dial table under the peer
identifier. -/
theorem dial_idempotent_and_flow (stack : NetworkStack) (st : SwarmDriver)
    (peer_id : PeerId) (peer_addr : Multiaddr)
    (sender : OneshotSender (Except Error Unit)) :
    ((alLookup peer_id st.pending_dial).isSome →
      handle_cmd stack st (.dial peer_id peer_addr sender) = (.ok (), st, [])) ∧
    (alLookup peer_id st.pending_dial = none →
      (∀ e, stack.dialOutcome peer_id peer_addr = .error e →
        handle_cmd stack st (.dial peer_id peer_addr sender) =
          (.ok (), st,
            [.kadAddAddress peer_id peer_addr, .swarmDialAttempt peer_id peer_addr,
              .sentUnitResult sender.id (.error (.dialFailure e))])) ∧
      (stack.dialOutcome peer_id peer_addr = .ok () →
        handle_cmd stack st (.dial peer_id peer_addr sender) =
          (.ok (), { st with pending_dial := st.pending_dial ++ [(peer_id, sender)] },
            [.kadAddAddress peer_id peer_addr, .swarmDialAttempt peer_id peer_addr]))) := by
  refine ⟨fun h => ?_, fun h => ⟨fun e he => ?_, fun hok => ?_⟩⟩
  · simp [handle_cmd, h]
  · simp [handle_cmd, h, he]
  · simp [handle_cmd, h, hok]

/-- Witness for C2: with a pending dial for peer `1` the second dial is a
no-op; on a fresh peer the success path inserts the entry and the failure
path completes the channel with the dial error. -/
theorem dial_idempotent_and_flow_witness :
    handle_cmd stack0 stDialBusy (.dial 1 33 uSender2) = (.ok (), stDialBusy, []) ∧
    handle_cmd stack0 st0 (.dial 1 33 uSender2) =
      (.ok (), { st0 with pending_dial := [(1, uSender2)] },
        [.kadAddAddress 1 33, .swarmDialAttempt 1 33]) ∧
    handle_cmd stackFail st0 (.dial 1 33 uSender2) =
      (.ok (), st0,
        [.kadAddAddress 1 33, .swarmDialAttempt 1 33,
          .sentUnitResult 12 (.error (.dialFailure 4))]) := by
  refine ⟨(dial_idempotent_and_flow stack0 stDialBusy 1 33 uSender2).1 (by decide), ?_, ?_⟩
  · have h := ((dial_idempotent_and_flow stack0 st0 1 33 uSender2).2 (by rfl)).2 (by rfl)
    simpa [st0] using h
  · have h := ((dial_idempotent_and_flow stackFail st0 1 33 uSender2).2 (by rfl)).1 4 (by rfl)
    simpa [uSender2] using h

/-- Claim C3: round-trip identity of the self-loopback.  A `SendRequest`
addressed to the local identity produces the loopback event whose responder
is `FromSelf` around the original completion channel, and a later
`SendResponse` carrying response `r` through that responder hands exactly
`Ok(r)` to that channel; with the receiver alive the write succeeds. -/
theorem self_request_response_roundtrip (stack stack2 : NetworkStack)
    (st st2 : SwarmDriver) (req : Request) (r : Response)
    (sender : OneshotSender (Except Error Response)) (h : sender.alive = true) :
    (handle_cmd stack st (.sendRequest req st.local_peer_id sender)).2.2 =
        [.eventRequestReceived req (.fromSelf sender)] ∧
    (handle_cmd stack2 st2 (.sendResponse r (.fromSelf sender))).2.2 =
        [.sentResponseResult sender.id (.ok r)] ∧
    (handle_cmd stack2 st2 (.sendResponse r (.fromSelf sender))).1 = .ok () := by
  refine ⟨?_, ?_, ?_⟩ <;> simp [handle_cmd, h]

/-- Witness for C3: request `41` to self, then response `55` through the
`FromSelf` responder, delivers exactly `Ok(55)` on channel `15`. -/
theorem self_request_response_roundtrip_witness :
    (handle_cmd stack0 st0 (.sendRequest 41 0 rSender1)).2.2 =
        [.eventRequestReceived 41 (.fromSelf rSender1)] ∧
    (handle_cmd stack0 st0 (.sendResponse 55 (.fromSelf rSender1))).2.2 =
        [.sentResponseResult 15 (.ok 55)] ∧
    (handle_cmd stack0 st0 (.sendResponse 55 (.fromSelf rSender1))).1 = .ok () := by
  have h := self_request_response_roundtrip stack0 stack0 st0 st0 41 55 rSender1 (by rfl)
  simpa [st0, rSender1] using h

/-- Counterexample to claim C4 as stated: `handle_cmd` applies the `?`
operator to `kademlia::put_record`, so on a store failure (here the oracle
fails with store error `8`) the error IS returned from `handle_cmd`,
contradicting "any store error from the submission is not surfaced at all —
in particular it is not returned from handle_cmd". -/
theorem putRecord_store_error_escapes :
    (handle_cmd stackFail st0 (.putProvidedDataAsRecord ⟨1, 2⟩)).1 =
      .error (.recordStoreError 8) := by rfl

/-- Claim C4 (amended): every `PutRecord` submits the record to the network
stack with the `Quorum::All` policy, writes to no completion channel and
inserts nothing into any correlation table (the driver state is unchanged);
on store success `handle_cmd` returns success, but a store error from the
submission is propagated and returned from `handle_cmd`. -/
theorem putRecord_quorum_all_and_error_propagation (stack : NetworkStack)
    (st : SwarmDriver) (record : Record) :
    (handle_cmd stack st (.putProvidedDataAsRecord record)).2.2 =
        [.kadPutRecord record .all] ∧
    (handle_cmd stack st (.putProvidedDataAsRecord record)).2.1 = st ∧
    (∀ q, stack.putRecordOutcome record .all = .ok q →
      (handle_cmd stack st (.putProvidedDataAsRecord record)).1 = .ok ()) ∧
    (∀ e, stack.putRecordOutcome record .all = .error e →
      (handle_cmd stack st (.putProvidedDataAsRecord record)).1 =
        .error (.recordStoreError e)) := by
  refine ⟨?_, ?_, fun q hq => ?_, fun e he => ?_⟩
  · cases h : stack.putRecordOutcome record .all <;> simp [handle_cmd, h]
  · cases h : stack.putRecordOutcome record .all <;> simp [handle_cmd, h]
  · simp [handle_cmd, hq]
  · simp [handle_cmd, he]

/-- Witness for amended C4: the successful oracle yields a success return,
the failing oracle yields the propagated store error. -/
theorem putRecord_quorum_all_and_error_propagation_witness :
    (handle_cmd stack0 st0 (.putProvidedDataAsRecord ⟨1, 2⟩)).1 = .ok () ∧
    (handle_cmd stackFail st0 (.putProvidedDataAsRecord ⟨1, 2⟩)).2.2 =
      [.kadPutRecord ⟨1, 2⟩ .all] :=
  ⟨(putRecord_quorum_all_and_error_propagation stack0 st0 ⟨1, 2⟩).2.2.1 9 (by rfl),
    (putRecord_quorum_all_and_error_propagation stackFail st0 ⟨1, 2⟩).1⟩

/-- Counterexample to claim C5 as stated: a `GetSwarmLocalState` whose
receiver has been dropped makes `handle_cmd` return
`InternalMsgChannelDropped`, although the command is not a `SendResponse`
with a `FromSelf` responder — so the self-owed response is not the single
error case. -/
theorem localState_dropped_receiver_error :
    (handle_cmd stack0 st0 (.getSwarmLocalState lsSenderDead)).1 =
      .error .internalMsgChannelDropped := by rfl

/-- Claim C5 (amended): `handle_cmd` returns success except in exactly five
cases — a store failure of `PutRecord` (propagated by `?`), a `SendRequest`
addressed to self whose event channel is closed (propagated by `?`), a
`SendResponse` with `FromSelf` responder whose receiver is gone, a
`SendResponse` with `FromPeer` responder whose wire channel is closed, and a
`GetSwarmLocalState` whose receiver is gone.  In particular listen and dial
errors and writes to dropped completion channels of `StartListening`,
`Dial`, `QueryForClosestPeers`, `GetClosestLocalPeers` and `GetData` are
confined to that command's completion channel. -/
theorem handle_cmd_error_cases (stack : NetworkStack) (st : SwarmDriver)
    (cmd : SwarmCmd) :
    (handle_cmd stack st cmd).1 = .ok () ∨
    (∃ record e, cmd = .putProvidedDataAsRecord record ∧
      stack.putRecordOutcome record .all = .error e ∧
      (handle_cmd stack st cmd).1 = .error (.recordStoreError e)) ∨
    (∃ req sender, cmd = .sendRequest req st.local_peer_id sender ∧
      stack.eventSendOk = false ∧
      (handle_cmd stack st cmd).1 = .error .eventChannelSendError) ∨
    (∃ resp chan, cmd = .sendResponse resp (.fromSelf chan) ∧ chan.alive = false ∧
      (handle_cmd stack st cmd).1 = .error .internalMsgChannelDropped) ∨
    (∃ resp chan, cmd = .sendResponse resp (.fromPeer chan) ∧
      stack.peerChannelOpen chan = false ∧
      (handle_cmd stack st cmd).1 = .error (.outgoingResponseDropped resp)) ∨
    (∃ sender, cmd = .getSwarmLocalState sender ∧ sender.alive = false ∧
      (handle_cmd stack st cmd).1 = .error .internalMsgChannelDropped) := by
  cases cmd with
  | getData key sender => exact Or.inl rfl
  | putProvidedDataAsRecord record =>
      cases h : stack.putRecordOutcome record .all with
      | ok q => exact Or.inl (by simp [handle_cmd, h])
      | error e =>
          exact Or.inr (Or.inl ⟨record, e, rfl, h, by simp [handle_cmd, h]⟩)
  | startListening addr sender =>
      cases h : stack.listenOutcome addr with
      | ok u => exact Or.inl (by simp [handle_cmd, h])
      | error e => exact Or.inl (by simp [handle_cmd, h])
  | dial p a sender =>
      by_cases h : (alLookup p st.pending_dial).isSome
      · exact Or.inl (by simp [handle_cmd, h])
      · cases hd : stack.dialOutcome p a with
        | ok u => exact Or.inl (by simp [handle_cmd, h, hd])
        | error e => exact Or.inl (by simp [handle_cmd, h, hd])
  | queryForClosestPeers x s => exact Or.inl rfl
  | getClosestLocalPeers x s => exact Or.inl rfl
  | sendRequest req peer sender =>
      by_cases h : peer = st.local_peer_id
      · by_cases he : stack.eventSendOk = true
        · exact Or.inl (by simp [handle_cmd, h, he])
        · refine Or.inr (Or.inr (Or.inl ⟨req, sender, by rw [h], ?_, ?_⟩))
          · simpa using he
          · simp [handle_cmd, h, he]
      · exact Or.inl (by simp [handle_cmd, h])
  | sendResponse resp channel =>
      cases channel with
      | fromSelf chan =>
          by_cases h : chan.alive = true
          · exact Or.inl (by simp [handle_cmd, h])
          · refine Or.inr (Or.inr (Or.inr (Or.inl ⟨resp, chan, rfl, ?_, ?_⟩)))
            · simpa using h
            · simp [handle_cmd, h]
      | fromPeer chan =>
          by_cases h : stack.peerChannelOpen chan = true
          · exact Or.inl (by simp [handle_cmd, h])
          · refine Or.inr (Or.inr (Or.inr (Or.inr (Or.inl ⟨resp, chan, rfl, ?_, ?_⟩))))
            · simpa using h
            · simp [handle_cmd, h]
  | getSwarmLocalState sender =>
      by_cases h : sender.alive = true
      · exact Or.inl (by simp [handle_cmd, h])
      · refine Or.inr (Or.inr (Or.inr (Or.inr (Or.inr ⟨sender, rfl, ?_, ?_⟩))))
        · simpa using h
        · simp [handle_cmd, h]

/-- Claim C6: `SendResponse` dispatches on the responder variant.  With
`FromSelf` the response is written as a success value directly to the stored
completion channel, and a dropped receiver is surfaced as the fatal internal
error `InternalMsgChannelDropped`; with `FromPeer` the response is handed to
the request-response behaviour for wire delivery, and a delivery failure is
surfaced as the distinct, non-fatal error `OutgoingResponseDropped` carrying
the response. -/
theorem sendResponse_dispatch (stack : NetworkStack) (st : SwarmDriver)
    (resp : Response) :
    (∀ chan : OneshotSender (Except Error Response),
      (handle_cmd stack st (.sendResponse resp (.fromSelf chan))).2.2 =
          [.sentResponseResult chan.id (.ok resp)] ∧
      (chan.alive = true →
        (handle_cmd stack st (.sendResponse resp (.fromSelf chan))).1 = .ok ()) ∧
      (chan.alive = false →
        (handle_cmd stack st (.sendResponse resp (.fromSelf chan))).1 =
          .error .internalMsgChannelDropped)) ∧
    (∀ chan : ResponseChannel,
      (handle_cmd stack st (.sendResponse resp (.fromPeer chan))).2.2 =
          [.reqRespSendResponse chan resp] ∧
      (stack.peerChannelOpen chan = true →
        (handle_cmd stack st (.sendResponse resp (.fromPeer chan))).1 = .ok ()) ∧
      (stack.peerChannelOpen chan = false →
        (handle_cmd stack st (.sendResponse resp (.fromPeer chan))).1 =
          .error (.outgoingResponseDropped resp))) ∧
    Error.outgoingResponseDropped resp ≠ Error.internalMsgChannelDropped := by
  refine ⟨fun chan => ⟨?_, fun h => ?_, fun h => ?_⟩,
    fun chan => ⟨?_, fun h => ?_, fun h => ?_⟩, by simp⟩
  all_goals simp [handle_cmd, *]

/-- Witness for C6: both responder variants, successful and failing
delivery, at concrete channels. -/
theorem sendResponse_dispatch_witness :
    (handle_cmd stack0 st0 (.sendResponse 55 (.fromSelf rSender1))).1 = .ok () ∧
    (handle_cmd stack0 st0 (.sendResponse 55 (.fromSelf ⟨15, false⟩))).1 =
      .error .internalMsgChannelDropped ∧
    (handle_cmd stack0 st0 (.sendResponse 55 (.fromPeer 2))).1 = .ok () ∧
    (handle_cmd stackFail st0 (.sendResponse 55 (.fromPeer 2))).1 =
      .error (.outgoingResponseDropped 55) :=
  ⟨((sendResponse_dispatch stack0 st0 55).1 rSender1).2.1 (by rfl),
    ((sendResponse_dispatch stack0 st0 55).1 ⟨15, false⟩).2.2 (by rfl),
    ((sendResponse_dispatch stack0 st0 55).2.1 2).2.1 (by rfl),
    ((sendResponse_dispatch stackFail st0 55).2.1 2).2.2 (by rfl)⟩

/-- Counterexample to claim C7 as stated: the pending-query table already
holds the handle `qSender1` under key `5`, the oracle returns `5` again for
the next `GetData`, and the insert REPLACES the pre-existing handle with
`qSender2` instead of failing and keeping it — `HashMap::insert` semantics,
not fail-if-present semantics. -/
theorem pending_query_insert_overwrites :
    alLookup 5 stQueryClash.pending_query = some qSender1 ∧
    (handle_cmd stack0 stQueryClash (.getData 0 qSender2)).2.1.pending_query =
      [(5, qSender2)] ∧
    qSender1 ≠ qSender2 :=
  ⟨by rfl, by rfl, by decide⟩

/-- Claim C7 (amended): only the `pending_dial` insertion is guarded by a
vacancy check, so a `Dial` for a peer with a pending entry leaves that table
unchanged and the pre-existing handle is kept.  The `pending_query`,
`pending_get_closest_peers` and `pending_requests` insertions follow
`HashMap::insert` replace semantics: after the command the (possibly already
present) key is bound to the NEW handle. -/
theorem table_insert_semantics (stack : NetworkStack) (st : SwarmDriver)
    (key : RecordKey) (xn : XorName) (req : Request) (peer : PeerId)
    (peer_id : PeerId) (peer_addr : Multiaddr)
    (dsender : OneshotSender (Except Error Unit))
    (qsender : OneshotSender QueryResponse)
    (gsender : OneshotSender (List PeerId))
    (rsender : OneshotSender (Except Error Response)) :
    ((alLookup peer_id st.pending_dial).isSome →
      (handle_cmd stack st (.dial peer_id peer_addr dsender)).2.1.pending_dial =
        st.pending_dial) ∧
    alLookup (stack.getRecordId key)
        (handle_cmd stack st (.getData key qsender)).2.1.pending_query =
      some qsender ∧
    alLookup (stack.getClosestPeersId xn)
        (handle_cmd stack st
          (.queryForClosestPeers xn gsender)).2.1.pending_get_closest_peers =
      some (gsender, []) ∧
    (peer ≠ st.local_peer_id →
      alLookup (stack.sendRequestId peer req)
          (handle_cmd stack st (.sendRequest req peer rsender)).2.1.pending_requests =
        some rsender) := by
  refine ⟨fun h => ?_, ?_, ?_, fun h => ?_⟩
  · simp [handle_cmd, h]
  · simp [handle_cmd, alLookup_mapInsert_self]
  · simp [handle_cmd, alLookup_mapInsert_self]
  · simp [handle_cmd, h, alLookup_mapInsert_self]

/-- Witness for amended C7: the occupied dial keeps its entry, and each of
the three other tables ends with the new handle under the returned
identifier — also when that identifier was already present. -/
theorem table_insert_semantics_witness :
    (handle_cmd stack0 stDialBusy (.dial 1 33 uSender2)).2.1.pending_dial =
      [(1, uSender1)] ∧
    alLookup 5 (handle_cmd stack0 stQueryClash (.getData 0 qSender1)).2.1.pending_query =
      some qSender1 ∧
    alLookup 6
        (handle_cmd stack0 st0
          (.queryForClosestPeers 0 pSender1)).2.1.pending_get_closest_peers =
      some (pSender1, []) ∧
    alLookup 7
        (handle_cmd stack0 stReqClash (.sendRequest 41 1 rSender2)).2.1.pending_requests =
      some rSender2 := by
  refine ⟨?_, ?_, ?_, ?_⟩
  · have h := (table_insert_semantics stack0 stDialBusy 0 0 41 1 1 33 uSender2 qSender1
      pSender1 rSender2).1 (by decide)
    simpa [stDialBusy, st0] using h
  · exact (table_insert_semantics stack0 stQueryClash 0 0 41 1 1 33 uSender2 qSender1
      pSender1 rSender2).2.1
  · exact (table_insert_semantics stack0 st0 0 0 41 1 1 33 uSender2 qSender1
      pSender1 rSender2).2.2.1
  · exact (table_insert_semantics stack0 stReqClash 0 0 41 1 1 33 uSender2 qSender1
      pSender1 rSender2).2.2.2 (by decide)

/-- Claim C8: `GetClosestLocalPeers` is purely synchronous — the returned
triple shows a successful result, an unchanged driver state (no table
entry, no pending identifier), and a trace that only reads the local
routing table and immediately writes the collected peer set to the
completion channel. -/
theorem getClosestLocalPeers_synchronous (stack : NetworkStack) (st : SwarmDriver)
    (xn : XorName) (sender : OneshotSender (List PeerId)) :
    handle_cmd stack st (.getClosestLocalPeers xn sender) =
      (.ok (), st,
        [.kadGetClosestLocalPeers xn,
          .sentPeers sender.id (stack.localClosestPeers xn)]) := by
  rfl

/-- Claim C9: `GetSwarmLocalState` writes to the completion channel a
snapshot value containing exactly the currently connected peers and the
currently active listeners of the processing-time state; being a value
computed from the pre-state it cannot be affected by later state changes.
The driver state is unchanged, a live receiver yields a success return, and
a dropped receiver is the fatal internal error `InternalMsgChannelDropped`. -/
theorem getLocalState_snapshot (stack : NetworkStack) (st : SwarmDriver)
    (sender : OneshotSender SwarmLocalState) :
    (handle_cmd stack st (.getSwarmLocalState sender)).2.2 =
      [.sentLocalState sender.id
        { connected_peers := st.connected_peers, listeners := st.swarm_listeners }] ∧
    (handle_cmd stack st (.getSwarmLocalState sender)).2.1 = st ∧
    (sender.alive = true →
      (handle_cmd stack st (.getSwarmLocalState sender)).1 = .ok ()) ∧
    (sender.alive = false →
      (handle_cmd stack st (.getSwarmLocalState sender)).1 =
        .error .internalMsgChannelDropped) := by
  refine ⟨rfl, rfl, fun h => ?_, fun h => ?_⟩ <;> simp [handle_cmd, h]

/-- Witness for C9: with two connected peers and one listener, the live
channel `19` receives exactly that snapshot and the command succeeds. -/
theorem getLocalState_snapshot_witness :
    (handle_cmd stack0 st0 (.getSwarmLocalState lsSenderLive)).2.2 =
      [.sentLocalState 19 { connected_peers := [21, 22], listeners := [31] }] ∧
    (handle_cmd stack0 st0 (.getSwarmLocalState lsSenderLive)).1 = .ok () := by
  have h := getLocalState_snapshot stack0 st0 lsSenderLive
  exact ⟨by simpa [st0, lsSenderLive] using h.1, h.2.2.1 (by rfl)⟩

/-- Counterexample to claim C10 as stated: with an operation identifier that
collides with an existing key (the oracle returns `7`, already a key of the
requests table), the remote `SendRequest` REPLACES the pre-existing entry
`(7, rSender1)`, so an entry present before the command is no longer present
afterwards. -/
theorem frame_violation_on_identifier_collision :
    (7, rSender1) ∈ stReqClash.pending_requests ∧
    (handle_cmd stack0 stReqClash (.sendRequest 41 1 rSender2)).2.1.pending_requests =
      [(7, rSender2)] ∧
    (7, rSender1) ∉
      (handle_cmd stack0 stReqClash (.sendRequest 41 1 rSender2)).2.1.pending_requests :=
  ⟨by decide, by rfl, by decide⟩

/-- Claim C10 (amended): provided every operation identifier the network
stack returns is not already a key of its target table (identifiers are
fresh per call), `handle_cmd` never removes or replaces an existing entry of
the four correlation tables — each table either stays unchanged or gets
exactly one fresh binding appended — and at most one table changes per
command. -/
theorem handle_cmd_frame (stack : NetworkStack) (st : SwarmDriver) (cmd : SwarmCmd)
    (hq : ∀ k, alLookup (stack.getRecordId k) st.pending_query = none)
    (hg : ∀ x, alLookup (stack.getClosestPeersId x) st.pending_get_closest_peers = none)
    (hr : ∀ p r, alLookup (stack.sendRequestId p r) st.pending_requests = none) :
    FramePreserved st (handle_cmd stack st cmd).2.1 := by
  cases cmd with
  | startListening addr sender =>
      cases h : stack.listenOutcome addr <;> simp only [handle_cmd, h] <;>
        exact framePreserved_refl st
  | dial p a sender =>
      by_cases h : (alLookup p st.pending_dial).isSome
      · simp only [handle_cmd, h, if_true]
        exact framePreserved_refl st
      · cases hd : stack.dialOutcome p a with
        | ok u =>
            simp only [handle_cmd, h, hd, Bool.false_eq_true, if_false]
            refine ⟨Or.inr ⟨p, sender, Option.not_isSome_iff_eq_none.mp h, rfl⟩,
              Or.inl rfl, Or.inl rfl, Or.inl rfl,
              fun _ => ⟨rfl, rfl, rfl⟩, fun hc => absurd rfl hc,
              fun hc => absurd rfl hc, fun hc => absurd rfl hc⟩
        | error e =>
            simp only [handle_cmd, h, hd, Bool.false_eq_true, if_false]
            exact framePreserved_refl st
  | queryForClosestPeers x s =>
      simp only [handle_cmd]
      rw [mapInsert_of_absent _ _ _ (hg x)]
      exact ⟨Or.inl rfl, Or.inl rfl,
        Or.inr ⟨stack.getClosestPeersId x, (s, []), hg x, rfl⟩, Or.inl rfl,
        fun hc => absurd rfl hc, fun hc => absurd rfl hc,
        fun _ => ⟨rfl, rfl, rfl⟩, fun hc => absurd rfl hc⟩
  | getClosestLocalPeers x s => exact framePreserved_refl st
  | sendRequest req peer sender =>
      by_cases h : peer = st.local_peer_id
      · simp only [handle_cmd, h, if_true]
        exact framePreserved_refl st
      · simp only [handle_cmd, h, if_false]
        rw [mapInsert_of_absent _ _ _ (hr peer req)]
        exact ⟨Or.inl rfl, Or.inl rfl, Or.inl rfl,
          Or.inr ⟨stack.sendRequestId peer req, sender, hr peer req, rfl⟩,
          fun hc => absurd rfl hc, fun hc => absurd rfl hc,
          fun hc => absurd rfl hc, fun _ => ⟨rfl, rfl, rfl⟩⟩
  | sendResponse resp channel =>
      cases channel with
      | fromSelf chan => exact framePreserved_refl st
      | fromPeer chan => exact framePreserved_refl st
  | getSwarmLocalState sender => exact framePreserved_refl st
  | putProvidedDataAsRecord record =>
      cases h : stack.putRecordOutcome record .all <;> simp only [handle_cmd, h] <;>
        exact framePreserved_refl st
  | getData key sender =>
      simp only [handle_cmd]
      rw [mapInsert_of_absent _ _ _ (hq key)]
      exact ⟨Or.inl rfl, Or.inr ⟨stack.getRecordId key, sender, hq key, rfl⟩,
        Or.inl rfl, Or.inl rfl,
        fun hc => absurd rfl hc, fun _ => ⟨rfl, rfl, rfl⟩,
        fun hc => absurd rfl hc, fun hc => absurd rfl hc⟩

/-- Witness for amended C10: on the empty tables of `st0` every identifier
is fresh, and a `GetData` preserves the frame. -/
theorem handle_cmd_frame_witness :
    FramePreserved st0 (handle_cmd stack0 st0 (.getData 0 qSender2)).2.1 :=
  handle_cmd_frame stack0 st0 (.getData 0 qSender2) (fun _ => rfl) (fun _ => rfl)
    (fun _ _ => rfl)

end SafeNode
